import Mathlib

/-!
Shallow embedding of the prediction pipeline of the medical-diagnosis
repository: the preprocessing methods of
`src/ml_models/base_model.py` (class BaseDiagnosisModel) and
`src/ml_models/random_forest.py` (class RandomForestModel), and the
orchestration in `src/services/diagnosis_service.py`
(class DiagnosisService), over exact rational arithmetic.

Python numeric values are modelled as rationals; Python strings are
modelled by how `float()` and splitting on the slash character treat
them, which is the only way the embedded code ever inspects a string.
-/

namespace Medical

/-- The seven clinical feature names, in the canonical order of
`BaseDiagnosisModel.feature_names`. -/
inductive Field
  | glucose_level
  | blood_pressure
  | skin_thickness
  | insulin_level
  | bmi
  | diabetes_pedigree_function
  | age
  deriving DecidableEq, Repr

/-- Abstraction of a Python string by its observable behaviour in this
code base: `float()` conversion and splitting on the slash.
`empty` is the string with no characters; `numeric q` is any string that
`float()` parses as the value `q` and that contains no slash (such as
the string 123.5 written in digits); `bp s d` is a string of the shape
systolic/diastolic whose two sides `float()`-parse to `s` and `d`;
`bpMalformed` is any other string containing a slash (unpacking or
`float()` raises on it, as for a/b or 1/2/3); `malformed` is any other
slash-free string on which `float()` raises (such as abc). -/
inductive Str
  | empty
  | numeric (q : ℚ)
  | bp (s d : ℚ)
  | bpMalformed
  | malformed
  deriving DecidableEq, Repr

/-- A Python value appearing in the raw parameter mapping: the value
None, a number (int or float, both exact here), or a string. -/
inductive Value
  | none
  | num (q : ℚ)
  | str (s : Str)
  deriving DecidableEq, Repr

/-- Python errors raised by the embedded code, together with the
spec-level error names for the sklearn collaborator failures. -/
inductive Err
  | valueError
  | typeError
  | validationError
  | misconfiguredPipeline
  | shapeMismatch
  | modelNotReady
  | unknownDiseaseLabel
  deriving DecidableEq, Repr

/-- Python float() applied to a Value: None raises TypeError; numbers
pass through; a numeric string parses; every other string (including
the empty string and any string containing a slash) raises ValueError. -/
def pyFloat : Value → Except Err ℚ
  | .none => .error .typeError
  | .num q => .ok q
  | .str .empty => .error .valueError
  | .str (.numeric q) => .ok q
  | .str (.bp _ _) => .error .valueError
  | .str .bpMalformed => .error .valueError
  | .str .malformed => .error .valueError

/-- np.clip of a scalar to the interval from lo to hi. -/
def clip (q lo hi : ℚ) : ℚ := max lo (min q hi)

/-- A raw parameter mapping: for each of the seven feature names, either
the key is absent (Option.none) or it is present with a Value.
Extra keys of the Python dict are never read by the embedded code. -/
structure Params where
  glucose_level : Option Value
  blood_pressure : Option Value
  skin_thickness : Option Value
  insulin_level : Option Value
  bmi : Option Value
  diabetes_pedigree_function : Option Value
  age : Option Value
  deriving DecidableEq, Repr

/-- Dictionary lookup data.get(feature) on a raw mapping. -/
def Params.get (p : Params) : Field → Option Value
  | .glucose_level => p.glucose_level
  | .blood_pressure => p.blood_pressure
  | .skin_thickness => p.skin_thickness
  | .insulin_level => p.insulin_level
  | .bmi => p.bmi
  | .diabetes_pedigree_function => p.diabetes_pedigree_function
  | .age => p.age

/-- A cleaned mapping: the dict built by `BaseDiagnosisModel.clean_data`,
which always carries all seven keys. -/
structure CParams where
  glucose_level : Value
  blood_pressure : Value
  skin_thickness : Value
  insulin_level : Value
  bmi : Value
  diabetes_pedigree_function : Value
  age : Value
  deriving DecidableEq, Repr

/-- Lookup on a cleaned mapping. -/
def CParams.get (p : CParams) : Field → Value
  | .glucose_level => p.glucose_level
  | .blood_pressure => p.blood_pressure
  | .skin_thickness => p.skin_thickness
  | .insulin_level => p.insulin_level
  | .bmi => p.bmi
  | .diabetes_pedigree_function => p.diabetes_pedigree_function
  | .age => p.age

/-- The shared missing-value step of `clean_data`: value = data.get(feature, 0),
then substituting 0 when the value is None or the empty string. -/
def cleanBase (v : Option Value) : Value :=
  let w := v.getD (.num 0)
  if w = .none ∨ w = .str .empty then .num 0 else w

/-- One scalar branch of `BaseDiagnosisModel.clean_data`:
np.clip(float(value), lo, hi). Raises when float() raises. -/
def cleanScalar (v : Option Value) (lo hi : ℚ) : Except Err Value :=
  (pyFloat (cleanBase v)).map (fun q => .num (clip q lo hi))

/-- The blood-pressure branch of `BaseDiagnosisModel.clean_data`: when the
value is a string containing a slash it is split, both sides are
converted by float() (raising on a malformed split), clamped to
systolic 70 to 200 and diastolic 40 to 130, and re-encoded as a string;
any other value passes through unchanged. -/
def cleanBP (v : Option Value) : Except Err Value :=
  match cleanBase v with
  | .str (.bp s d) => .ok (.str (.bp (clip s 70 200) (clip d 40 130)))
  | .str .bpMalformed => .error .valueError
  | w => .ok w

/-- BaseDiagnosisModel.clean_data: iterates the seven feature names in
canonical order, substituting 0 for missing or empty values and clamping
each scalar to its field range; blood pressure is clamped per side and
re-encoded. Raises (returns error) when float() raises on some field. -/
def clean_data (data : Params) : Except Err CParams := do
  let g ← cleanScalar data.glucose_level 0 500
  let b ← cleanBP data.blood_pressure
  let s ← cleanScalar data.skin_thickness 0 100
  let i ← cleanScalar data.insulin_level 0 1000
  let m ← cleanScalar data.bmi 0 100
  let p ← cleanScalar data.diabetes_pedigree_function 0 10
  let a ← cleanScalar data.age 0 120
  pure ⟨g, b, s, i, m, p, a⟩

/-- BaseDiagnosisModel.transform_data: when the blood-pressure value is a
string containing a slash, replace it by the mean arterial pressure
(systolic + 2 * diastolic) / 3; all other fields pass through unchanged.
A malformed slash string makes float() raise. -/
def transform_data (data : CParams) : Except Err CParams :=
  match data.blood_pressure with
  | .str (.bp s d) => .ok { data with blood_pressure := .num ((s + 2 * d) / 3) }
  | .str .bpMalformed => .error .valueError
  | _ => .ok data

/-- BaseDiagnosisModel.create_feature_vector: float(data.get(feature, 0))
for the seven features in canonical order. -/
def create_feature_vector (data : CParams) : Except Err (List ℚ) := do
  let g ← pyFloat data.glucose_level
  let b ← pyFloat data.blood_pressure
  let s ← pyFloat data.skin_thickness
  let i ← pyFloat data.insulin_level
  let m ← pyFloat data.bmi
  let p ← pyFloat data.diabetes_pedigree_function
  let a ← pyFloat data.age
  pure [g, b, s, i, m, p, a]

/-- State of the StandardScaler attribute of a model: the Python value
None (falsy, so the scaling step is skipped), an instance that has not
been fit, or a fitted instance holding per-column (mean, scale) pairs. -/
inductive ScalerState
  | noScaler
  | unfitted
  | fitted (ps : List (ℚ × ℚ))
  deriving DecidableEq, Repr

/-- The scaling step of both preprocess_data methods: if self.scaler is
falsy the features pass through; otherwise self.scaler.transform is
applied. Modelled from the spec for the sklearn part, which is not in
the repository: transform on an unfitted scaler raises NotFittedError
(the MisconfiguredPipeline error of the spec), a feature count different
from the fitted one raises ValueError (the ShapeMismatch error), and
otherwise each column is mapped to (x - mean) / scale. -/
def scaleStep (s : ScalerState) (v : List ℚ) : Except Err (List ℚ) :=
  match s with
  | .noScaler => .ok v
  | .unfitted => .error .misconfiguredPipeline
  | .fitted ps =>
      if v.length = ps.length then
        .ok (List.zipWith (fun p x => (x - p.1) / p.2) ps v)
      else .error .shapeMismatch

/-- BaseDiagnosisModel.preprocess_data: clean, then transform, then
vectorize, then scale when a scaler is present. -/
def base_preprocess_data (data : Params) (s : ScalerState) : Except Err (List ℚ) := do
  let cleaned ← clean_data data
  let transformed ← transform_data cleaned
  let features ← create_feature_vector transformed
  scaleStep s features

/-- RandomForestModel.preprocess_blood_pressure: try to split on the
slash and return the mean arterial pressure; any ValueError or
AttributeError (None, numbers, and every non-bp string) yields 0.0. -/
def preprocess_blood_pressure : Value → ℚ
  | .str (.bp s d) => (s + 2 * d) / 3
  | _ => 0

/-- The dict data.copy() update performed by
RandomForestModel.preprocess_data: when the blood-pressure key is
present its value is replaced by preprocess_blood_pressure of it. -/
def rf_processed (data : Params) : Params :=
  match data.blood_pressure with
  | some v => { data with blood_pressure := some (.num (preprocess_blood_pressure v)) }
  | none => data

/-- The feature-vector comprehension inside
RandomForestModel.preprocess_data: float(processed.get(feature, 0)) in
canonical order. -/
def rf_feature_vector (data : Params) : Except Err (List ℚ) := do
  let g ← pyFloat (data.glucose_level.getD (.num 0))
  let b ← pyFloat (data.blood_pressure.getD (.num 0))
  let s ← pyFloat (data.skin_thickness.getD (.num 0))
  let i ← pyFloat (data.insulin_level.getD (.num 0))
  let m ← pyFloat (data.bmi.getD (.num 0))
  let p ← pyFloat (data.diabetes_pedigree_function.getD (.num 0))
  let a ← pyFloat (data.age.getD (.num 0))
  pure [g, b, s, i, m, p, a]

/-- RandomForestModel.preprocess_data, the override used on the
prediction path: replace the blood-pressure value, vectorize, scale.
It does not call clean_data. -/
def rf_preprocess_data (data : Params) (s : ScalerState) : Except Err (List ℚ) := do
  let features ← rf_feature_vector (rf_processed data)
  scaleStep s features

/-- State of the classifier attribute of a model: the Python value None
(attribute access on it raises), an instance that has not been fit, or a
fitted classifier abstracted by the number of features it was fit on,
its label function, and its class-probability function (a sklearn
predict_proba row is a nonempty probability vector). -/
inductive ClfState
  | noModel
  | untrained
  | trained (n : ℕ) (label : List ℚ → ℕ) (probs : List ℚ → List ℚ)

/-- Modelled from the spec for the sklearn classifier, which is not in
the repository: predict on a missing or unfitted model fails with the
ModelNotReady error of the spec (AttributeError or NotFittedError in
sklearn), a feature vector whose length differs from the fitted feature
count raises ValueError (the ShapeMismatch error of the spec), and
otherwise the label function is applied. This is
RandomForestModel.predict, self.model.predict(X). -/
def clfPredict : ClfState → List ℚ → Except Err ℕ
  | .noModel, _ => .error .modelNotReady
  | .untrained, _ => .error .modelNotReady
  | .trained n label _, v =>
      if v.length = n then .ok (label v) else .error .shapeMismatch

/-- Modelled from the spec for sklearn predict_proba, with the same
readiness and shape behaviour as clfPredict. -/
def clfProbs : ClfState → List ℚ → Except Err (List ℚ)
  | .noModel, _ => .error .modelNotReady
  | .untrained, _ => .error .modelNotReady
  | .trained n _ probs, v =>
      if v.length = n then .ok (probs v) else .error .shapeMismatch

/-- np.max over a probability row: raises on an empty vector, otherwise
the greatest element. -/
def npMax (l : List ℚ) : Except Err ℚ :=
  match l.max? with
  | some m => .ok m
  | none => .error .valueError

/-- The logistic rescaling applied by RandomForestModel.get_confidence_score:
100 / (1 + exp(-0.1 * (confidence - 50))). -/
noncomputable def scaledConfidence (raw : ℝ) : ℝ :=
  100 / (1 + Real.exp (-(0.1) * (raw - 50)))

/-- A model instance as used on the prediction path: its scaler and its
classifier attributes. -/
structure Model where
  scaler : ScalerState
  clf : ClfState

/-- RandomForestModel.get_confidence_score: the largest class
probability of the first row, times 100, then the logistic rescaling. -/
noncomputable def get_confidence_score (M : Model) (X : List ℚ) : Except Err ℝ := do
  let probs ← clfProbs M.clf X
  let confidence ← npMax probs
  pure (scaledConfidence ((confidence * 100 : ℚ) : ℝ))

/-- BaseDiagnosisModel.get_prediction_with_confidence, with
preprocess_data dispatching to the RandomForestModel override:
preprocess, predict, score. -/
noncomputable def get_prediction_with_confidence (M : Model) (data : Params) :
    Except Err (ℕ × ℝ) := do
  let features ← rf_preprocess_data data M.scaler
  let pred ← clfPredict M.clf features
  let conf ← get_confidence_score M features
  pure (pred, conf)

/-- A stored medical_parameters row (src/database/models.py,
MedicalParameter), with the fields the service writes. -/
structure MedicalParameterRec where
  record_id : ℕ
  glucose_level : Option ℚ
  blood_pressure : Option Str
  skin_thickness : Option ℚ
  insulin_level : Option ℚ
  bmi : Option ℚ
  diabetes_pedigree_function : Option ℚ
  age : ℤ
  deriving DecidableEq, Repr

/-- A diseases row, abstracted to the column the service reads. -/
structure DiseaseRec where
  disease_id : ℕ
  deriving DecidableEq, Repr

/-- A stored diagnoses row with the fields the service writes. -/
structure DiagnosisRec where
  disease_id : ℕ
  record_id : ℕ
  confidence_score : ℝ
  model_version : String
  notes : Option String
  status : String

/-- The database state visible to DiagnosisService: the three tables it
touches. Each insert below commits immediately, as in the source where
db.commit() follows every db.add(). -/
structure Db where
  medicalParams : List MedicalParameterRec
  diagnoses : List DiagnosisRec
  diseases : List DiseaseRec

/-- Python int() truncation toward zero of an exact rational. -/
def pyInt (q : ℚ) : ℤ := q.num.tdiv (q.den : ℤ)

/-- Pydantic validation of an Optional confloat(gt=0) field of
MedicalParameterBase (src/database/schemas.py): a missing key or the
value None validates to None; a number, or a numeric string coerced by
pydantic, must be strictly positive; any other value is rejected with a
ValidationError. -/
def validFloatGt0 : Option Value → Except Err (Option ℚ)
  | Option.none => .ok Option.none
  | some .none => .ok Option.none
  | some (.num q) => if 0 < q then .ok (some q) else .error .validationError
  | some (.str (.numeric q)) => if 0 < q then .ok (some q) else .error .validationError
  | some (.str _) => .error .validationError

/-- Pydantic validation of the Optional[float] field
diabetes_pedigree_function, which has no bound. -/
def validFloat : Option Value → Except Err (Option ℚ)
  | Option.none => .ok Option.none
  | some .none => .ok Option.none
  | some (.num q) => .ok (some q)
  | some (.str (.numeric q)) => .ok (some q)
  | some (.str _) => .error .validationError

/-- Pydantic validation of the Optional[str] field blood_pressure:
None validates to None, a string passes through, and a number is
coerced to its decimal string. -/
def validOptStr : Option Value → Except Err (Option Str)
  | Option.none => .ok Option.none
  | some .none => .ok Option.none
  | some (.str s) => .ok (some s)
  | some (.num q) => .ok (some (.numeric q))

/-- Pydantic validation of the required conint(gt=0) field age: a
missing key or None is rejected; a number is truncated by int() and
must then be strictly positive; a numeric string must be integral and
strictly positive; any other value is rejected. -/
def validAge : Option Value → Except Err ℤ
  | Option.none => .error .validationError
  | some .none => .error .validationError
  | some (.num q) =>
      if 0 < pyInt q then .ok (pyInt q) else .error .validationError
  | some (.str (.numeric q)) =>
      if q.den = 1 ∧ 0 < q.num then .ok q.num else .error .validationError
  | some (.str _) => .error .validationError

/-- Building MedicalParameterCreate inside
DiagnosisService.create_medical_parameters: each field is read with
params.get and validated by the pydantic schema. -/
def validateMedicalParameter (params : Params) (rid : ℕ) :
    Except Err MedicalParameterRec := do
  let g ← validFloatGt0 params.glucose_level
  let b ← validOptStr params.blood_pressure
  let s ← validFloatGt0 params.skin_thickness
  let i ← validFloatGt0 params.insulin_level
  let m ← validFloatGt0 params.bmi
  let p ← validFloat params.diabetes_pedigree_function
  let a ← validAge params.age
  pure ⟨rid, g, b, s, i, m, p, a⟩

/-- DiagnosisService.create_medical_parameters: validate the raw
parameters through the pydantic schema (raising a ValidationError on
rejection), insert the row, and commit. -/
def create_medical_parameters (db : Db) (params : Params) (rid : ℕ) :
    Except Err (Db × MedicalParameterRec) :=
  (validateMedicalParameter params rid).map fun rec =>
    ({ db with medicalParams := db.medicalParams ++ [rec] }, rec)

open Classical in
/-- DiagnosisService.create_diagnosis: validate DiagnosisCreate, whose
confidence_score is a confloat(ge=0, le=100), insert the diagnoses row
with status pending, and commit. -/
noncomputable def create_diagnosis (db : Db) (disease_id rid : ℕ)
    (confidence : ℝ) (version : String) (notes : Option String) :
    Except Err Db :=
  if 0 ≤ confidence ∧ confidence ≤ 100 then
    .ok { db with diagnoses := db.diagnoses ++
            [⟨disease_id, rid, confidence, version, notes, "pending"⟩] }
  else .error .validationError

/-- The value of DEFAULT_MODEL in config/settings.py. -/
def DEFAULT_MODEL : String := "random_forest"

/-- DiagnosisService.predict_disease: insert the raw medical parameters
(committed), run the model, look the predicted label up in the diseases
table, and insert the diagnosis. Reading disease.disease_id when the
lookup returned None raises AttributeError, the UnknownDiseaseLabel
failure of the spec; the parameter insert is not rolled back on any
failure. The function returns the database state after the call
together with the outcome. -/
noncomputable def predict_disease (M : Model) (db : Db) (params : Params)
    (rid : ℕ) : Db × Except Err (DiseaseRec × ℝ) :=
  match create_medical_parameters db params rid with
  | .error e => (db, .error e)
  | .ok (db1, _) =>
    match get_prediction_with_confidence M params with
    | .error e => (db1, .error e)
    | .ok (pred, conf) =>
      match db1.diseases.find? (fun d => d.disease_id = pred) with
      | Option.none => (db1, .error .unknownDiseaseLabel)
      | some disease =>
        match create_diagnosis db1 disease.disease_id rid conf DEFAULT_MODEL
            (some "Automated diagnosis using random_forest") with
        | .error e => (db1, .error e)
        | .ok db2 => (db2, .ok (disease, conf))

/-- Decidable equality of Except results, used to evaluate the embedded
functions on concrete inputs. -/
instance {ε α : Type _} [DecidableEq ε] [DecidableEq α] : DecidableEq (Except ε α) := fun x y =>
  match x, y with
  | .error a, .error b =>
      if h : a = b then isTrue (by rw [h]) else isFalse (fun hxy => h (by injection hxy))
  | .ok a, .ok b =>
      if h : a = b then isTrue (by rw [h]) else isFalse (fun hxy => h (by injection hxy))
  | .error _, .ok _ => isFalse (fun hxy => Except.noConfusion hxy)
  | .ok _, .error _ => isFalse (fun hxy => Except.noConfusion hxy)

/-- The documented upper clamp bound of each scalar field of clean_data
(the blood-pressure entry is unused: that field is not clamped as a
scalar). -/
def scalarHi : Field → ℚ
  | .glucose_level => 500
  | .blood_pressure => 0
  | .skin_thickness => 100
  | .insulin_level => 1000
  | .bmi => 100
  | .diabetes_pedigree_function => 10
  | .age => 120

/-- Spec-side predicate for the amended C1: a scalar field value that is
absent or a number already inside its clamp range. -/
def scalarOk (v : Option Value) (lo hi : ℚ) : Prop :=
  v = Option.none ∨ ∃ q : ℚ, v = some (.num q) ∧ lo ≤ q ∧ q ≤ hi

/-- Spec-side predicate for the amended C1: a blood-pressure value that
is absent or a well-formed bp string already inside the per-side clamp
ranges. -/
def bpOk (v : Option Value) : Prop :=
  v = Option.none ∨ ∃ s d : ℚ, v = some (.str (.bp s d)) ∧ 70 ≤ s ∧ s ≤ 200 ∧ 40 ≤ d ∧ d ≤ 130

/-- The numeric content of an absent-or-numeric scalar field value. -/
def evScalar : Option Value → ℚ
  | some (.num q) => q
  | _ => 0

/-- Raw mapping exhibiting that the prediction-path preprocessing skips
the clamping step: a glucose level of 9000 with every other key absent. -/
def C1data : Params :=
  ⟨some (.num 9000), Option.none, Option.none, Option.none, Option.none, Option.none,
    Option.none⟩

/-- A fitted scaler whose transform is the identity (mean 0, scale 1 on
each of the 7 columns). -/
def idScaler : ScalerState := .fitted [(0, 1), (0, 1), (0, 1), (0, 1), (0, 1), (0, 1), (0, 1)]

/-- Raw mapping with in-range present numeric fields and a well-formed
in-range blood-pressure string, used to witness the amended C1. -/
def benignData : Params :=
  ⟨some (.num 150), some (.str (.bp 150 115)), some (.num 38), some (.num 170),
    some (.num 32), Option.none, some (.num 70)⟩

/-- Raw mapping mixing the input anomalies of C2: glucose -50
(negative outlier), skin thickness the empty string, insulin None,
pedigree 99 and age 9000 (positive outliers), bmi in range, blood
pressure absent. -/
def C2data : Params :=
  ⟨some (.num (-50)), Option.none, some (.str .empty), some .none, some (.num 32),
    some (.num 99), some (.num 9000)⟩

/-- The cleaned mapping produced from C2data. -/
def C2cleaned : CParams :=
  ⟨.num 0, .num 0, .num 0, .num 0, .num 32, .num 10, .num 120⟩

/-- A concrete model state for witnesses: scaler attribute None, classifier fitted on 7 features, constant label 0, constant probability row. -/
def demoModel : Model := ⟨.noScaler, .trained 7 (fun _ => 0) (fun _ => [1])⟩

/-- Raw mapping passing the pydantic schema and preprocessing without arithmetic: all values integral, blood pressure absent. -/
def C6params : Params :=
  ⟨some (.num 150), Option.none, some (.num 38), some (.num 170), some (.num 32), Option.none,
    some (.num 70)⟩

/-- A database with no rows in any table. -/
def emptyDb : Db := ⟨[], [], []⟩

/-- A database whose diseases table has exactly the disease with id 0. -/
def oneDiseaseDb : Db := ⟨[], [], [⟨0⟩]⟩

/-- The MedicalParameter row that create_medical_parameters inserts for C6params under record id 1. -/
def C6rec : MedicalParameterRec :=
  ⟨1, some 150, Option.none, some 38, some 170, some 32, Option.none, 70⟩

/-- Raw mapping whose age is the out-of-range value 0, rejected by the conint(gt=0) schema field. -/
def C9params : Params :=
  ⟨some (.num 150), Option.none, Option.none, Option.none, Option.none, Option.none,
    some (.num 0)⟩

/-- Raw mapping whose glucose level is a non-numeric string, making float() raise inside clean_data. -/
def C9badStr : Params :=
  ⟨some (.str .malformed), Option.none, Option.none, Option.none, Option.none, Option.none,
    some (.num 35)⟩

/-- Spec-side predicate for the amended C9: a field value that is absent, None, the empty string, or numeric. -/
def numericOrMissing (v : Option Value) : Prop :=
  v = Option.none ∨ v = some .none ∨ v = some (.str .empty) ∨ ∃ q : ℚ, v = some (.num q)

/-! Helper lemmas about the preprocessing pipeline. -/

lemma clip_eq_self {q lo hi : ℚ} (h1 : lo ≤ q) (h2 : q ≤ hi) : clip q lo hi = q := by
  simp [clip, min_eq_left h2, max_eq_right h1]

lemma clip_zero {hi : ℚ} (hhi : 0 ≤ hi) : clip 0 0 hi = 0 := by
  simp [clip, min_eq_left hhi]

lemma clip_nonneg {q hi : ℚ} : 0 ≤ clip q 0 hi := le_max_left 0 _

lemma clip_le_hi {q hi : ℚ} (hhi : 0 ≤ hi) : clip q 0 hi ≤ hi :=
  max_le hhi (min_le_right q hi)

lemma pyFloat_num (q : ℚ) : pyFloat (.num q) = .ok q := rfl

lemma cleanScalar_of_ok {v : Option Value} {hi : ℚ} (h : scalarOk v 0 hi)
    (hhi : 0 ≤ hi) : cleanScalar v 0 hi = .ok (.num (evScalar v)) := by
  rcases h with h | ⟨q, h, h1, h2⟩ <;> subst h
  · simp [cleanScalar, cleanBase, pyFloat, evScalar, Except.map, clip_zero hhi]
  · simp [cleanScalar, cleanBase, pyFloat, evScalar, Except.map, clip_eq_self h1 h2]

lemma rfFloat_of_ok {v : Option Value} {hi : ℚ} (h : scalarOk v 0 hi) :
    pyFloat (v.getD (.num 0)) = .ok (evScalar v) := by
  rcases h with h | ⟨q, h, _, _⟩ <;> subst h <;> simp [pyFloat, evScalar]

lemma cleanScalar_ok_bounds {v : Option Value} {hi : ℚ} {w : Value}
    (h : cleanScalar v 0 hi = .ok w) (hhi : 0 ≤ hi) :
    ∃ q : ℚ, w = .num q ∧ 0 ≤ q ∧ q ≤ hi := by
  unfold cleanScalar at h
  cases hf : pyFloat (cleanBase v) <;> rw [hf] at h <;> simp [Except.map] at h
  exact ⟨_, h.symm, clip_nonneg, clip_le_hi hhi⟩

lemma cleanScalar_of_missing (hi : ℚ) {v : Option Value}
    (h : v = Option.none ∨ v = some .none ∨ v = some (.str .empty)) (hhi : 0 ≤ hi) :
    cleanScalar v 0 hi = .ok (.num 0) := by
  rcases h with h | h | h <;> subst h <;>
    simp [cleanScalar, cleanBase, pyFloat, Except.map, clip_zero hhi]

lemma transform_data_of_num (c : CParams) {q : ℚ} (h : c.blood_pressure = .num q) :
    transform_data c = .ok c := by
  unfold transform_data; rw [h]

lemma transform_data_of_bp (c : CParams) {s d : ℚ} (h : c.blood_pressure = .str (.bp s d)) :
    transform_data c = .ok { c with blood_pressure := .num ((s + 2 * d) / 3) } := by
  unfold transform_data; rw [h]

lemma rf_processed_of_none {data : Params} (h : data.blood_pressure = Option.none) :
    rf_processed data = data := by
  unfold rf_processed; rw [h]

lemma rf_processed_of_some {data : Params} {v : Value} (h : data.blood_pressure = some v) :
    rf_processed data =
      { data with blood_pressure := some (.num (preprocess_blood_pressure v)) } := by
  unfold rf_processed; rw [h]

lemma ppBP_of_not_bp {v : Value} (h : ∀ s d : ℚ, v ≠ .str (.bp s d)) :
    preprocess_blood_pressure v = 0 := by
  cases v with
  | none => rfl
  | num q => rfl
  | str s =>
    cases s with
    | empty => rfl
    | numeric q => rfl
    | bp a b => exact absurd rfl (h a b)
    | bpMalformed => rfl
    | malformed => rfl

lemma clean_data_fields {data : Params} {c : CParams} (h : clean_data data = .ok c) :
    cleanScalar data.glucose_level 0 500 = .ok c.glucose_level ∧
    cleanBP data.blood_pressure = .ok c.blood_pressure ∧
    cleanScalar data.skin_thickness 0 100 = .ok c.skin_thickness ∧
    cleanScalar data.insulin_level 0 1000 = .ok c.insulin_level ∧
    cleanScalar data.bmi 0 100 = .ok c.bmi ∧
    cleanScalar data.diabetes_pedigree_function 0 10 = .ok c.diabetes_pedigree_function ∧
    cleanScalar data.age 0 120 = .ok c.age := by
  unfold clean_data at h
  cases hg : cleanScalar data.glucose_level 0 500 <;> rw [hg] at h <;>
    simp only [Except.bind, bind] at h
  case error e => exact absurd h (by simp)
  cases hb : cleanBP data.blood_pressure <;> rw [hb] at h <;>
    simp only [Except.bind, bind] at h
  case error e => exact absurd h (by simp)
  cases hs : cleanScalar data.skin_thickness 0 100 <;> rw [hs] at h <;>
    simp only [Except.bind, bind] at h
  case error e => exact absurd h (by simp)
  cases hi : cleanScalar data.insulin_level 0 1000 <;> rw [hi] at h <;>
    simp only [Except.bind, bind] at h
  case error e => exact absurd h (by simp)
  cases hm : cleanScalar data.bmi 0 100 <;> rw [hm] at h <;>
    simp only [Except.bind, bind] at h
  case error e => exact absurd h (by simp)
  cases hp : cleanScalar data.diabetes_pedigree_function 0 10 <;> rw [hp] at h <;>
    simp only [Except.bind, bind] at h
  case error e => exact absurd h (by simp)
  cases ha : cleanScalar data.age 0 120 <;> rw [ha] at h <;>
    simp only [Except.bind, bind] at h
  case error e => exact absurd h (by simp)
  simp only [pure, Except.pure, Except.ok.injEq] at h
  subst h
  exact ⟨rfl, rfl, rfl, rfl, rfl, rfl, rfl⟩

/-! The claims. -/

/-- C1, counterexample: on the raw mapping with glucose 9000 and an
identity fitted scaler, the prediction-path preprocessing
(RandomForestModel.preprocess_data) does not compute the feature vector
of the mandatory base pipeline, because it skips the clean step: it
produces a 9000 entry where the base pipeline clamps to 500. -/
theorem C1_counterexample :
    rf_preprocess_data C1data idScaler ≠ base_preprocess_data C1data idScaler := by
  have h1 : rf_preprocess_data C1data idScaler = .ok [9000, 0, 0, 0, 0, 0, 0] := by
    simp [rf_preprocess_data, C1data, rf_processed, rf_feature_vector, pyFloat, idScaler,
      scaleStep, Except.bind, bind, pure, Except.pure]
  have h2 : base_preprocess_data C1data idScaler = .ok [500, 0, 0, 0, 0, 0, 0] := by
    have hc : clip 9000 0 500 = 500 := by norm_num [clip]
    have h100 : clip 0 0 (100 : ℚ) = 0 := clip_zero (by norm_num)
    have h1000 : clip 0 0 (1000 : ℚ) = 0 := clip_zero (by norm_num)
    have h10 : clip 0 0 (10 : ℚ) = 0 := clip_zero (by norm_num)
    have h120 : clip 0 0 (120 : ℚ) = 0 := clip_zero (by norm_num)
    simp [base_preprocess_data, C1data, clean_data, cleanScalar, cleanBase, cleanBP, pyFloat,
      transform_data, create_feature_vector, idScaler, scaleStep, hc, h100, h1000, h10,
      h120, Except.bind, bind, pure, Except.pure, Except.map]
  rw [h1, h2]
  intro h
  norm_num at h

/-- C1, amended: RandomForestModel.preprocess_data skips the clean step,
so it computes the same feature vector as the mandatory base pipeline
only on raw mappings whose scalar fields are each absent or numeric and
already inside their clamp ranges and whose blood pressure is absent or
a well-formed bp string already inside the per-side clamp ranges; on
such inputs the two preprocessing paths agree for every scaler state. -/
theorem C1_theorem (data : Params) (s : ScalerState)
    (hg : scalarOk data.glucose_level 0 500)
    (hb : bpOk data.blood_pressure)
    (hs : scalarOk data.skin_thickness 0 100)
    (hi : scalarOk data.insulin_level 0 1000)
    (hm : scalarOk data.bmi 0 100)
    (hp : scalarOk data.diabetes_pedigree_function 0 10)
    (ha : scalarOk data.age 0 120) :
    rf_preprocess_data data s = base_preprocess_data data s := by
  have eg := cleanScalar_of_ok hg (by norm_num)
  have es := cleanScalar_of_ok hs (by norm_num)
  have ei := cleanScalar_of_ok hi (by norm_num)
  have em := cleanScalar_of_ok hm (by norm_num)
  have ep := cleanScalar_of_ok hp (by norm_num)
  have ea := cleanScalar_of_ok ha (by norm_num)
  have rg := rfFloat_of_ok hg
  have rs := rfFloat_of_ok hs
  have ri := rfFloat_of_ok hi
  have rm := rfFloat_of_ok hm
  have rp := rfFloat_of_ok hp
  have ra := rfFloat_of_ok ha
  rcases hb with hb | ⟨sy, di, hb, hs1, hs2, hd1, hd2⟩
  · have ebp : cleanBP data.blood_pressure = .ok (.num 0) := by rw [hb]; rfl
    have rb : pyFloat (data.blood_pressure.getD (.num 0)) = .ok 0 := by rw [hb]; rfl
    have hcl : clean_data data = .ok ⟨.num (evScalar data.glucose_level), .num 0,
        .num (evScalar data.skin_thickness), .num (evScalar data.insulin_level),
        .num (evScalar data.bmi), .num (evScalar data.diabetes_pedigree_function),
        .num (evScalar data.age)⟩ := by
      simp [clean_data, eg, es, ei, em, ep, ea, ebp, Except.bind, bind, pure, Except.pure]
    have htr := transform_data_of_num (⟨.num (evScalar data.glucose_level), .num 0,
        .num (evScalar data.skin_thickness), .num (evScalar data.insulin_level),
        .num (evScalar data.bmi), .num (evScalar data.diabetes_pedigree_function),
        .num (evScalar data.age)⟩ : CParams) rfl
    have hrf := rf_processed_of_none hb
    simp [rf_preprocess_data, base_preprocess_data, hrf, rf_feature_vector,
      hcl, htr, create_feature_vector, pyFloat_num, rg, rs, ri, rm, rp, ra, rb,
      Except.bind, bind, pure, Except.pure]
  · have ebp : cleanBP data.blood_pressure = .ok (.str (.bp sy di)) := by
      rw [hb]
      show cleanBP (some (.str (.bp sy di))) = .ok (.str (.bp sy di))
      simp [cleanBP, cleanBase, clip_eq_self hs1 hs2, clip_eq_self hd1 hd2]
    have hcl : clean_data data = .ok ⟨.num (evScalar data.glucose_level), .str (.bp sy di),
        .num (evScalar data.skin_thickness), .num (evScalar data.insulin_level),
        .num (evScalar data.bmi), .num (evScalar data.diabetes_pedigree_function),
        .num (evScalar data.age)⟩ := by
      simp [clean_data, eg, es, ei, em, ep, ea, ebp, Except.bind, bind, pure, Except.pure]
    have htr := transform_data_of_bp (⟨.num (evScalar data.glucose_level),
        .str (.bp sy di), .num (evScalar data.skin_thickness),
        .num (evScalar data.insulin_level), .num (evScalar data.bmi),
        .num (evScalar data.diabetes_pedigree_function), .num (evScalar data.age)⟩ : CParams) rfl
    have hrf := rf_processed_of_some hb
    simp [rf_preprocess_data, base_preprocess_data, hrf, rf_feature_vector,
      hcl, htr, create_feature_vector, pyFloat_num, rg, rs, ri, rm, rp, ra,
      preprocess_blood_pressure, Except.bind, bind, pure, Except.pure]

/-- C1, witness: the amended equivalence applied to a concrete benign
mapping and the identity fitted scaler. -/
theorem C1_witness :
    rf_preprocess_data benignData idScaler = base_preprocess_data benignData idScaler :=
  C1_theorem benignData idScaler
    (Or.inr ⟨150, rfl, by norm_num, by norm_num⟩)
    (Or.inr ⟨150, 115, rfl, by norm_num, by norm_num, by norm_num, by norm_num⟩)
    (Or.inr ⟨38, rfl, by norm_num, by norm_num⟩)
    (Or.inr ⟨170, rfl, by norm_num, by norm_num⟩)
    (Or.inr ⟨32, rfl, by norm_num, by norm_num⟩)
    (Or.inl rfl)
    (Or.inr ⟨70, rfl, by norm_num, by norm_num⟩)

/-- C2: whenever clean_data returns a cleaned mapping, each of the six
scalar fields holds a number between 0 and its documented bound
(glucose 500, skin thickness 100, insulin 1000, bmi 100, pedigree 10,
age 120), whatever the magnitude or sign of the input, and an absent,
None or empty input value comes out as exactly 0. -/
theorem C2_theorem (data : Params) (c : CParams) (h : clean_data data = .ok c) :
    (∀ f : Field, f ≠ .blood_pressure →
      ∃ q : ℚ, c.get f = .num q ∧ 0 ≤ q ∧ q ≤ scalarHi f) ∧
    (∀ f : Field, f ≠ .blood_pressure →
      (data.get f = Option.none ∨ data.get f = some .none ∨
        data.get f = some (.str .empty)) →
      c.get f = .num 0) := by
  obtain ⟨eg, ebp, es, ei, em, ep, ea⟩ := clean_data_fields h
  constructor
  · intro f hf
    cases f
    case blood_pressure => exact absurd rfl hf
    case glucose_level =>
      simp only [CParams.get, scalarHi]
      exact cleanScalar_ok_bounds eg (by norm_num)
    case skin_thickness =>
      simp only [CParams.get, scalarHi]
      exact cleanScalar_ok_bounds es (by norm_num)
    case insulin_level =>
      simp only [CParams.get, scalarHi]
      exact cleanScalar_ok_bounds ei (by norm_num)
    case bmi =>
      simp only [CParams.get, scalarHi]
      exact cleanScalar_ok_bounds em (by norm_num)
    case diabetes_pedigree_function =>
      simp only [CParams.get, scalarHi]
      exact cleanScalar_ok_bounds ep (by norm_num)
    case age =>
      simp only [CParams.get, scalarHi]
      exact cleanScalar_ok_bounds ea (by norm_num)
  · intro f hf hmiss
    cases f
    case blood_pressure => exact absurd rfl hf
    case glucose_level =>
      simp only [Params.get] at hmiss
      rw [cleanScalar_of_missing 500 hmiss (by norm_num)] at eg
      simp only [CParams.get]
      injection eg with e
      exact e.symm
    case skin_thickness =>
      simp only [Params.get] at hmiss
      rw [cleanScalar_of_missing 100 hmiss (by norm_num)] at es
      simp only [CParams.get]
      injection es with e
      exact e.symm
    case insulin_level =>
      simp only [Params.get] at hmiss
      rw [cleanScalar_of_missing 1000 hmiss (by norm_num)] at ei
      simp only [CParams.get]
      injection ei with e
      exact e.symm
    case bmi =>
      simp only [Params.get] at hmiss
      rw [cleanScalar_of_missing 100 hmiss (by norm_num)] at em
      simp only [CParams.get]
      injection em with e
      exact e.symm
    case diabetes_pedigree_function =>
      simp only [Params.get] at hmiss
      rw [cleanScalar_of_missing 10 hmiss (by norm_num)] at ep
      simp only [CParams.get]
      injection ep with e
      exact e.symm
    case age =>
      simp only [Params.get] at hmiss
      rw [cleanScalar_of_missing 120 hmiss (by norm_num)] at ea
      simp only [CParams.get]
      injection ea with e
      exact e.symm

/-- C2, witness: the bounds applied to a concrete mapping with a
negative outlier, an empty string, a None and two positive outliers. -/
theorem C2_witness :
    (∃ q : ℚ, C2cleaned.get .glucose_level = .num q ∧ 0 ≤ q ∧
      q ≤ scalarHi .glucose_level) ∧
    C2cleaned.get .skin_thickness = .num 0 :=
  ⟨(C2_theorem C2data C2cleaned (by decide)).1 .glucose_level (by decide),
    (C2_theorem C2data C2cleaned (by decide)).2 .skin_thickness (by decide)
      (by decide)⟩

/-- C3: transform_data maps a well-formed blood-pressure string with
sides s and d to the single scalar (s + 2 * d) / 3 and leaves every
other field unchanged; for sides 120 and 80 the derived scalar is
(120 + 2 * 80) / 3, which is within 1e-6 of 93.333333. -/
theorem C3_theorem :
    (∀ (c : CParams) (s d : ℚ), c.blood_pressure = .str (.bp s d) →
      transform_data c = .ok { c with blood_pressure := .num ((s + 2 * d) / 3) }) ∧
    (∀ c : CParams, c.blood_pressure = .str (.bp 120 80) →
      (transform_data c).map CParams.blood_pressure = .ok (.num ((120 + 2 * 80) / 3)) ∧
      |((120 + 2 * 80 : ℚ) / 3) - 93333333 / 1000000| ≤ 1 / 1000000) := by
  constructor
  · intro c s d h
    exact transform_data_of_bp c h
  · intro c h
    refine ⟨?_, by rw [abs_le]; constructor <;> norm_num⟩
    rw [transform_data_of_bp c h]
    rfl

/-- C3, witness: the transform applied to the cleaned mapping whose
blood pressure is the 120/80 string. -/
theorem C3_witness :
    transform_data ⟨.num 85, .str (.bp 120 80), .num 20, .num 80, .num 22, .num 1, .num 35⟩ =
      .ok ⟨.num 85, .num ((120 + 2 * 80) / 3), .num 20, .num 80, .num 22, .num 1, .num 35⟩ :=
  (C3_theorem.1 ⟨.num 85, .str (.bp 120 80), .num 20, .num 80, .num 22, .num 1, .num 35⟩
    120 80 rfl)

/-- C10: preprocess_blood_pressure returns 0 on every value that is not
a well-formed bp string (None, numbers, the empty string, slash-free
strings, malformed slash strings) without raising, returns
(s + 2 * d) / 3 on a well-formed bp string, and consequently the
feature the classifier receives for blood pressure on such non-bp
inputs is 0. -/
theorem C10_theorem :
    (∀ v : Value, (∀ s d : ℚ, v ≠ .str (.bp s d)) → preprocess_blood_pressure v = 0) ∧
    (∀ s d : ℚ, preprocess_blood_pressure (.str (.bp s d)) = (s + 2 * d) / 3) ∧
    (∀ (data : Params) (v : Value), data.blood_pressure = some v →
      (∀ s d : ℚ, v ≠ .str (.bp s d)) →
      pyFloat ((rf_processed data).blood_pressure.getD (.num 0)) = .ok 0) := by
  refine ⟨fun v h => ppBP_of_not_bp h, fun s d => rfl, fun data v hv h => ?_⟩
  rw [rf_processed_of_some hv]
  simp [ppBP_of_not_bp h, pyFloat]

/-- C10, witness: the fallback applied to the value None and the
propagation of the 0 into the feature position on a concrete mapping. -/
theorem C10_witness :
    preprocess_blood_pressure .none = 0 ∧
    pyFloat ((rf_processed ⟨Option.none, some (.str .malformed), Option.none, Option.none,
      Option.none, Option.none, Option.none⟩).blood_pressure.getD (.num 0)) = .ok 0 :=
  ⟨C10_theorem.1 .none (fun s d h => Value.noConfusion h),
    C10_theorem.2.2 _ (.str .malformed) rfl
      (fun s d h => by injection h with h2; exact Str.noConfusion h2)⟩

lemma scaledConfidence_pos (raw : ℝ) : 0 < scaledConfidence raw := by
  unfold scaledConfidence
  positivity

lemma scaledConfidence_lt_100 (raw : ℝ) : scaledConfidence raw < 100 := by
  unfold scaledConfidence
  have h := Real.exp_pos (-(0.1) * (raw - 50))
  rw [div_lt_iff₀ (by linarith)]
  nlinarith

lemma scaledConfidence_mono {a b : ℝ} (hab : a ≤ b) :
    scaledConfidence a ≤ scaledConfidence b := by
  unfold scaledConfidence
  have he : Real.exp (-(0.1) * (b - 50)) ≤ Real.exp (-(0.1) * (a - 50)) :=
    Real.exp_le_exp.mpr (by nlinarith)
  have hb : (0:ℝ) < 1 + Real.exp (-(0.1) * (b - 50)) := by positivity
  have ha : (0:ℝ) < 1 + Real.exp (-(0.1) * (a - 50)) := by positivity
  gcongr

lemma scaledConfidence_50 : scaledConfidence 50 = 50 := by
  unfold scaledConfidence
  norm_num [Real.exp_zero]

lemma pyInt_nonpos {q : ℚ} (hq : q ≤ 0) : pyInt q ≤ 0 := by
  unfold pyInt
  have hn : q.num ≤ 0 := Rat.num_nonpos.mpr hq
  have h2 : 0 ≤ (-q.num).tdiv (q.den : ℤ) :=
    Int.tdiv_nonneg (by omega) (by positivity)
  rw [Int.neg_tdiv] at h2
  omega

lemma cmp_ok {db : Db} {params : Params} {rid : ℕ} {db1 : Db} {rec : MedicalParameterRec}
    (h : create_medical_parameters db params rid = .ok (db1, rec)) :
    db1 = { db with medicalParams := db.medicalParams ++ [rec] } := by
  unfold create_medical_parameters at h
  cases hv : validateMedicalParameter params rid <;> rw [hv] at h <;>
    simp only [Except.map] at h
  · exact absurd h (by simp)
  · simp only [Except.ok.injEq, Prod.mk.injEq] at h
    obtain ⟨h1, h2⟩ := h
    subst h2
    exact h1.symm

lemma gcs_ok {M : Model} {X : List ℚ} {r : ℝ} (h : get_confidence_score M X = .ok r) :
    ∃ q : ℚ, r = scaledConfidence ((q : ℚ) : ℝ) := by
  unfold get_confidence_score at h
  cases hp : clfProbs M.clf X <;> rw [hp] at h <;> simp only [bind, Except.bind] at h
  case error e => exact absurd h (by simp)
  rename_i probs
  cases hm : npMax probs <;> rw [hm] at h <;> simp only [bind, Except.bind] at h
  case error e => exact absurd h (by simp)
  rename_i m
  simp only [pure, Except.pure, Except.ok.injEq] at h
  exact ⟨m * 100, h.symm⟩

lemma gpwc_parts {M : Model} {data : Params} {pred : ℕ} {conf : ℝ}
    (h : get_prediction_with_confidence M data = .ok (pred, conf)) :
    ∃ feats : List ℚ, rf_preprocess_data data M.scaler = .ok feats ∧
      clfPredict M.clf feats = .ok pred ∧
      get_confidence_score M feats = .ok conf := by
  unfold get_prediction_with_confidence at h
  cases hf : rf_preprocess_data data M.scaler <;> rw [hf] at h <;>
    simp only [bind, Except.bind] at h
  case error e => exact absurd h (by simp)
  rename_i feats
  cases hp : clfPredict M.clf feats <;> rw [hp] at h <;> simp only [bind, Except.bind] at h
  case error e => exact absurd h (by simp)
  rename_i p
  cases hc : get_confidence_score M feats <;> rw [hc] at h <;>
    simp only [bind, Except.bind] at h
  case error e => exact absurd h (by simp)
  rename_i c
  simp only [pure, Except.pure, Except.ok.injEq, Prod.mk.injEq] at h
  obtain ⟨h1, h2⟩ := h
  subst h1
  subst h2
  exact ⟨feats, rfl, hp, hc⟩

lemma predict_disease_success (M : Model) (db : Db) (params : Params) (rid : ℕ)
    (db1 : Db) (rec : MedicalParameterRec) (pred : ℕ) (conf : ℝ) (disease : DiseaseRec)
    (hcmp : create_medical_parameters db params rid = .ok (db1, rec))
    (hgpwc : get_prediction_with_confidence M params = .ok (pred, conf))
    (hfind : db1.diseases.find? (fun d => d.disease_id = pred) = some disease)
    (h0 : 0 ≤ conf) (h1 : conf ≤ 100) :
    predict_disease M db params rid =
      ({ db1 with diagnoses := db1.diagnoses ++
          [⟨disease.disease_id, rid, conf, DEFAULT_MODEL,
            some "Automated diagnosis using random_forest", "pending"⟩] },
        .ok (disease, conf)) := by
  unfold predict_disease
  simp only [hcmp, hgpwc, hfind]
  unfold create_diagnosis
  rw [if_pos ⟨h0, h1⟩]

/-- C4: the confidence calibration scaled(raw) = 100 / (1 + exp(-0.1 * (raw - 50))) is monotonic non-decreasing in raw over all reals, and scaled(50) = 50 exactly. -/
theorem C4_theorem :
    (∀ a b : ℝ, a ≤ b → scaledConfidence a ≤ scaledConfidence b) ∧
    scaledConfidence 50 = 50 :=
  ⟨fun _ _ hab => scaledConfidence_mono hab, scaledConfidence_50⟩

/-- C4, witness: monotonicity applied at 10 and 20, and the fixed point at 50. -/
theorem C4_witness :
    scaledConfidence 10 ≤ scaledConfidence 20 ∧ scaledConfidence 50 = 50 :=
  ⟨C4_theorem.1 10 20 (by norm_num), C4_theorem.2⟩

/-- C5: for every finite raw confidence the calibrated confidence lies strictly between 0 and 100, and consequently the confidence in the pair returned by a successful predict_disease lies in the open interval (0, 100). -/
theorem C5_theorem :
    (∀ raw : ℝ, 0 < scaledConfidence raw ∧ scaledConfidence raw < 100) ∧
    (∀ (M : Model) (db : Db) (params : Params) (rid : ℕ) (d : DiseaseRec) (conf : ℝ),
      (predict_disease M db params rid).2 = .ok (d, conf) →
      0 < conf ∧ conf < 100) := by
  constructor
  · exact fun raw => ⟨scaledConfidence_pos raw, scaledConfidence_lt_100 raw⟩
  · intro M db params rid d conf h
    unfold predict_disease at h
    cases hcmp : create_medical_parameters db params rid with
    | error e => simp [hcmp] at h
    | ok p =>
      obtain ⟨db1, rec⟩ := p
      cases hg : get_prediction_with_confidence M params with
      | error e => simp [hcmp, hg] at h
      | ok pc =>
        obtain ⟨pred, conf1⟩ := pc
        simp only [hcmp, hg] at h
        cases hf : db1.diseases.find? (fun dd => dd.disease_id = pred) with
        | none => simp [hf] at h
        | some disease =>
          simp only [hf] at h
          cases hcd : create_diagnosis db1 disease.disease_id rid conf1 DEFAULT_MODEL
              (some "Automated diagnosis using random_forest") with
          | error e => simp [hcd] at h
          | ok db2 =>
            simp only [hcd, Except.ok.injEq, Prod.mk.injEq] at h
            obtain ⟨hd, hc⟩ := h
            obtain ⟨feats, hfe, hpred, hgcs⟩ := gpwc_parts hg
            obtain ⟨q, hq⟩ := gcs_ok hgcs
            rw [← hc, hq]
            exact ⟨scaledConfidence_pos _, scaledConfidence_lt_100 _⟩

/-- C5, witness: the bounds applied to the confidence returned by a concrete successful predict_disease run. -/
theorem C5_witness :
    0 < scaledConfidence ((1 * 100 : ℚ) : ℝ) ∧ scaledConfidence ((1 * 100 : ℚ) : ℝ) < 100 :=
  C5_theorem.2 demoModel oneDiseaseDb C6params 1 ⟨0⟩ (scaledConfidence ((1 * 100 : ℚ) : ℝ))
    (by rw [predict_disease_success demoModel oneDiseaseDb C6params 1 ⟨[C6rec], [], [⟨0⟩]⟩
      C6rec 0 (scaledConfidence ((1 * 100 : ℚ) : ℝ)) ⟨0⟩ rfl rfl rfl
      (le_of_lt (scaledConfidence_pos _)) (le_of_lt (scaledConfidence_lt_100 _))])

/-- C6: when the disease lookup finds no Disease row for the predicted label, predict_disease fails with the UnknownDiseaseLabel error (the AttributeError raised at disease.disease_id on the None lookup result), terminally for the request, and no Diagnosis row is inserted. -/
theorem C6_theorem (M : Model) (db : Db) (params : Params) (rid : ℕ)
    (db1 : Db) (rec : MedicalParameterRec) (pred : ℕ) (conf : ℝ)
    (hcmp : create_medical_parameters db params rid = .ok (db1, rec))
    (hgpwc : get_prediction_with_confidence M params = .ok (pred, conf))
    (hfind : db1.diseases.find? (fun d => d.disease_id = pred) = Option.none) :
    predict_disease M db params rid = (db1, .error .unknownDiseaseLabel) ∧
    db1.diagnoses = db.diagnoses := by
  constructor
  · unfold predict_disease
    simp only [hcmp, hgpwc, hfind]
  · rw [cmp_ok hcmp]

/-- C6, witness: the terminal failure on a concrete run against a database with no diseases. -/
theorem C6_witness :
    predict_disease demoModel emptyDb C6params 1 =
      (⟨[C6rec], [], []⟩, .error .unknownDiseaseLabel) ∧
    (⟨[C6rec], [], []⟩ : Db).diagnoses = emptyDb.diagnoses :=
  C6_theorem demoModel emptyDb C6params 1 ⟨[C6rec], [], []⟩ C6rec 0
    (scaledConfidence ((1 * 100 : ℚ) : ℝ)) rfl rfl rfl

/-- C7: whenever the Persist-raw step completed and a later step of predict_disease fails, the MedicalParameter row inserted in step 2 is still in the resulting database state; the orchestrator rolls nothing back. -/
theorem C7_theorem (M : Model) (db : Db) (params : Params) (rid : ℕ)
    (db1 : Db) (rec : MedicalParameterRec) (e : Err)
    (hcmp : create_medical_parameters db params rid = .ok (db1, rec))
    (hfail : (predict_disease M db params rid).2 = .error e) :
    rec ∈ (predict_disease M db params rid).1.medicalParams := by
  have hdb1 := cmp_ok hcmp
  have hmem : rec ∈ db1.medicalParams := by rw [hdb1]; simp
  unfold predict_disease at hfail ⊢
  simp only [hcmp] at hfail ⊢
  cases hg : get_prediction_with_confidence M params with
  | error e2 => simp only [hg]; exact hmem
  | ok pc =>
    obtain ⟨pred, conf⟩ := pc
    simp only [hg] at hfail ⊢
    cases hf : db1.diseases.find? (fun dd => dd.disease_id = pred) with
    | none => simp only [hf]; exact hmem
    | some disease =>
      simp only [hf] at hfail ⊢
      cases hcd : create_diagnosis db1 disease.disease_id rid conf DEFAULT_MODEL
          (some "Automated diagnosis using random_forest") with
      | error e2 => simp only [hcd]; exact hmem
      | ok db2 => simp [hcd] at hfail

/-- C7, witness: the inserted row remains observable after a concrete run failing at the disease lookup. -/
theorem C7_witness :
    C6rec ∈ (predict_disease demoModel emptyDb C6params 1).1.medicalParams :=
  C7_theorem demoModel emptyDb C6params 1 ⟨[C6rec], [], []⟩ C6rec .unknownDiseaseLabel
    rfl rfl

/-- C8: predicting with a model that is missing or not fitted fails with ModelNotReady, a feature vector whose length differs from the fitted count fails with ShapeMismatch, and applying the scaler before it is fit fails with MisconfiguredPipeline. -/
theorem C8_theorem :
    (∀ v : List ℚ, clfPredict .noModel v = .error .modelNotReady ∧
      clfPredict .untrained v = .error .modelNotReady) ∧
    (∀ (n : ℕ) (label : List ℚ → ℕ) (probs : List ℚ → List ℚ) (v : List ℚ),
      v.length ≠ n → clfPredict (.trained n label probs) v = .error .shapeMismatch) ∧
    (∀ v : List ℚ, scaleStep .unfitted v = .error .misconfiguredPipeline) := by
  refine ⟨fun v => ⟨rfl, rfl⟩, fun n label probs v hv => ?_, fun v => rfl⟩
  simp only [clfPredict]
  rw [if_neg hv]

/-- C8, witness: the shape mismatch applied to a 2-element vector against a model fitted on 7 features. -/
theorem C8_witness :
    clfPredict (.trained 7 (fun _ => 0) (fun _ => [1])) [1, 2] = .error .shapeMismatch :=
  C8_theorem.2.1 7 (fun _ => 0) (fun _ => [1]) [1, 2] (by decide)

lemma validFloatGt0_cases (v : Option Value) :
    validFloatGt0 v = .error .validationError ∨ ∃ w, validFloatGt0 v = .ok w := by
  rcases v with _ | (_ | q | (_ | q | ⟨a, b⟩ | _ | _))
  · exact Or.inr ⟨Option.none, rfl⟩
  · exact Or.inr ⟨Option.none, rfl⟩
  · by_cases hq : 0 < q
    · exact Or.inr ⟨some q, by simp [validFloatGt0, hq]⟩
    · exact Or.inl (by simp [validFloatGt0, hq])
  · exact Or.inl rfl
  · by_cases hq : 0 < q
    · exact Or.inr ⟨some q, by simp [validFloatGt0, hq]⟩
    · exact Or.inl (by simp [validFloatGt0, hq])
  · exact Or.inl rfl
  · exact Or.inl rfl
  · exact Or.inl rfl

lemma validFloat_cases (v : Option Value) :
    validFloat v = .error .validationError ∨ ∃ w, validFloat v = .ok w := by
  rcases v with _ | (_ | q | (_ | q | ⟨a, b⟩ | _ | _))
  · exact Or.inr ⟨Option.none, rfl⟩
  · exact Or.inr ⟨Option.none, rfl⟩
  · exact Or.inr ⟨some q, rfl⟩
  · exact Or.inl rfl
  · exact Or.inr ⟨some q, rfl⟩
  · exact Or.inl rfl
  · exact Or.inl rfl
  · exact Or.inl rfl

lemma validOptStr_ok (v : Option Value) : ∃ w, validOptStr v = .ok w := by
  rcases v with _ | (_ | q | s)
  · exact ⟨Option.none, rfl⟩
  · exact ⟨Option.none, rfl⟩
  · exact ⟨some (.numeric q), rfl⟩
  · exact ⟨some s, rfl⟩

lemma cleanScalar_total (hi : ℚ) {v : Option Value} (h : numericOrMissing v) :
    ∃ w, cleanScalar v 0 hi = .ok w := by
  rcases h with h | h | h | ⟨q, h⟩ <;> subst h
  · exact ⟨.num (clip 0 0 hi), rfl⟩
  · exact ⟨.num (clip 0 0 hi), rfl⟩
  · exact ⟨.num (clip 0 0 hi), rfl⟩
  · exact ⟨.num (clip q 0 hi), rfl⟩

lemma cleanBP_total {v : Option Value} (h : numericOrMissing v) :
    ∃ w, cleanBP v = .ok w := by
  rcases h with h | h | h | ⟨q, h⟩ <;> subst h
  · exact ⟨.num 0, rfl⟩
  · exact ⟨.num 0, rfl⟩
  · exact ⟨.num 0, rfl⟩
  · exact ⟨.num q, rfl⟩

/-- C9, amended: cleaning never raises on mappings whose values are numeric, missing, None or empty (out-of-range values are clamped, missing and empty default to 0), but the Persist-raw step rejects a missing or non-positive age with a pydantic ValidationError. -/
theorem C9_theorem :
    (∀ data : Params, (∀ f : Field, numericOrMissing (data.get f)) →
      ∃ c : CParams, clean_data data = .ok c) ∧
    (∀ (db : Db) (params : Params) (rid : ℕ) (q : ℚ),
      params.age = some (.num q) → q ≤ 0 →
      create_medical_parameters db params rid = .error .validationError) ∧
    (∀ (db : Db) (params : Params) (rid : ℕ),
      params.age = Option.none →
      create_medical_parameters db params rid = .error .validationError) := by
  refine ⟨?_, ?_, ?_⟩
  · intro data h
    obtain ⟨wg, hwg⟩ := cleanScalar_total 500 (h .glucose_level)
    obtain ⟨wb, hwb⟩ := cleanBP_total (h .blood_pressure)
    obtain ⟨ws, hws⟩ := cleanScalar_total 100 (h .skin_thickness)
    obtain ⟨wi, hwi⟩ := cleanScalar_total 1000 (h .insulin_level)
    obtain ⟨wm, hwm⟩ := cleanScalar_total 100 (h .bmi)
    obtain ⟨wp, hwp⟩ := cleanScalar_total 10 (h .diabetes_pedigree_function)
    obtain ⟨wa, hwa⟩ := cleanScalar_total 120 (h .age)
    simp only [Params.get] at hwg hwb hws hwi hwm hwp hwa
    exact ⟨⟨wg, wb, ws, wi, wm, wp, wa⟩, by
      simp [clean_data, hwg, hwb, hws, hwi, hwm, hwp, hwa, bind, Except.bind, pure,
        Except.pure]⟩
  · intro db params rid q hage hq
    have hAge : validAge params.age = .error .validationError := by
      rw [hage]
      simp only [validAge]
      rw [if_neg (not_lt.mpr (pyInt_nonpos hq))]
    unfold create_medical_parameters validateMedicalParameter
    rcases validFloatGt0_cases params.glucose_level with hg | ⟨vg, hg⟩
    · simp [hg, bind, Except.bind, Except.map]
    obtain ⟨vb, hb⟩ := validOptStr_ok params.blood_pressure
    rcases validFloatGt0_cases params.skin_thickness with hs | ⟨vs, hs⟩
    · simp [hg, hb, hs, bind, Except.bind, Except.map]
    rcases validFloatGt0_cases params.insulin_level with hi | ⟨vi, hi⟩
    · simp [hg, hb, hs, hi, bind, Except.bind, Except.map]
    rcases validFloatGt0_cases params.bmi with hm | ⟨vm, hm⟩
    · simp [hg, hb, hs, hi, hm, bind, Except.bind, Except.map]
    rcases validFloat_cases params.diabetes_pedigree_function with hp | ⟨vp, hp⟩
    · simp [hg, hb, hs, hi, hm, hp, bind, Except.bind, Except.map]
    simp [hg, hb, hs, hi, hm, hp, hAge, bind, Except.bind, Except.map]
  · intro db params rid hage
    have hAge : validAge params.age = .error .validationError := by
      rw [hage]
      rfl
    unfold create_medical_parameters validateMedicalParameter
    rcases validFloatGt0_cases params.glucose_level with hg | ⟨vg, hg⟩
    · simp [hg, bind, Except.bind, Except.map]
    obtain ⟨vb, hb⟩ := validOptStr_ok params.blood_pressure
    rcases validFloatGt0_cases params.skin_thickness with hs | ⟨vs, hs⟩
    · simp [hg, hb, hs, bind, Except.bind, Except.map]
    rcases validFloatGt0_cases params.insulin_level with hi | ⟨vi, hi⟩
    · simp [hg, hb, hs, hi, bind, Except.bind, Except.map]
    rcases validFloatGt0_cases params.bmi with hm | ⟨vm, hm⟩
    · simp [hg, hb, hs, hi, hm, bind, Except.bind, Except.map]
    rcases validFloat_cases params.diabetes_pedigree_function with hp | ⟨vp, hp⟩
    · simp [hg, hb, hs, hi, hm, hp, bind, Except.bind, Except.map]
    simp [hg, hb, hs, hi, hm, hp, hAge, bind, Except.bind, Except.map]

/-- C9, counterexample: the Persist-raw step raises a ValidationError on the out-of-range age 0, and clean_data raises a ValueError on a non-numeric glucose string, refuting that input anomalies never cause the core pipeline to raise. -/
theorem C9_counterexample :
    create_medical_parameters emptyDb C9params 1 = .error .validationError ∧
    clean_data C9badStr = .error .valueError :=
  ⟨rfl, rfl⟩

/-- C9, witness: cleaning succeeds on a concrete numeric mapping, and the persist-raw rejection at age 0. -/
theorem C9_witness :
    (∃ c : CParams, clean_data C6params = .ok c) ∧
    create_medical_parameters emptyDb C9params 1 = .error .validationError :=
  ⟨C9_theorem.1 C6params (by
      intro f
      cases f
      · exact Or.inr (Or.inr (Or.inr ⟨150, rfl⟩))
      · exact Or.inl rfl
      · exact Or.inr (Or.inr (Or.inr ⟨38, rfl⟩))
      · exact Or.inr (Or.inr (Or.inr ⟨170, rfl⟩))
      · exact Or.inr (Or.inr (Or.inr ⟨32, rfl⟩))
      · exact Or.inl rfl
      · exact Or.inr (Or.inr (Or.inr ⟨70, rfl⟩))),
    C9_theorem.2.1 emptyDb C9params 1 0 rfl le_rfl⟩

end Medical
